import Mathlib

/-!
Shallow embedding of the board/entity simulation core of the curses
Space-Invaders repository (modular sources: `Config.py`, `WindowConfig.py`,
`EntityType.py`, `Entity.py`, `Entities.py`, `Borders.py`, `Board.py`,
`SpaceInvaders.py`).

Modelling conventions:
- Python exceptions are modelled by `Except PyErr`.  Each distinct `raise`
  site in the source gets the exception message it raises; a failed attribute
  lookup (`obj.attr` where the class defines no `attr`) is
  `PyErr.attributeError "attr"`; `list.remove` on a missing element is
  `PyErr.valueError`.
- Game coordinates are `Int` (Python ints; moves can produce negatives).
- The two board buffers (`curr_board`, `next_board`) and the pristine
  `empty_board` are total functions `Int → Int → List Entity`; all accesses
  performed by the modelled code stay inside the 21 x 27 true grid, where
  this agrees with Python list indexing.
- `copy.deepcopy` of a buffer is modelled as the value itself: entities are
  values here, and an `id` field stands for the distinct identity of each
  allocated Python object.
- In-place mutations that happen before an exception is raised (for example
  the `append` performed just before the failing `entity.setPosition` call in
  `Board.setEntityAtPos`) are discarded by the `Except` model; every such
  exception is fatal in the program, so the post-raise state is never
  observed by the code being specified.
-/

/-- Python exceptions raised by the modelled code. -/
inductive PyErr where
  /-- `AttributeError` from looking up a missing attribute of this name. -/
  | attributeError (attr : String)
  /-- `ValueError` from `list.remove(x)` when `x` is absent. -/
  | valueError
  /-- a `raise Exception(msg)` site, identified by its message. -/
  | exception (msg : String)
deriving DecidableEq

/-- `EntityType.py`: the kind enum. -/
inductive EntityType where
  | player
  | playerProjectile
  | enemy
  | enemyProjectile
  | obstacle
  | border
deriving DecidableEq

-- `Colors.py`: the color ids used by entity templates.
namespace Colors

def RED : Nat := 1

def GREEN : Nat := 2

def YELLOW : Nat := 3

def CYAN : Nat := 4

def MAGENTA : Nat := 5

def WHITE : Nat := 6

end Colors

namespace Config

/-- `Config.BOARD_HEIGHT` -/
def BOARD_HEIGHT : Int := 15

/-- `Config.BOARD_WIDTH` -/
def BOARD_WIDTH : Int := 25

/-- `Config.ENEMY_COUNT = BOARD_WIDTH * 2` -/
def ENEMY_COUNT : Nat := 50

/-- `Config.ENEMY_SPACING` -/
def ENEMY_SPACING : Nat := 2

/-- `Config.TICKS_PER_ENEMY_MOVEMENT` -/
def TICKS_PER_ENEMY_MOVEMENT : Nat := 3

end Config

namespace WindowConfig

/-- `WindowConfig.BORDER_WIDTH` -/
def BORDER_WIDTH : Int := 1

/-- `WindowConfig.TITLE_BAR_HEIGHT = 1 + BORDER_WIDTH` -/
def TITLE_BAR_HEIGHT : Int := 1 + BORDER_WIDTH

/-- `WindowConfig.PLAYER_STATS_HEIGHT = 1 + BORDER_WIDTH` -/
def PLAYER_STATS_HEIGHT : Int := 1 + BORDER_WIDTH

/-- `WindowConfig.TRUE_BOARD_WIDTH = BOARD_WIDTH + 2 * BORDER_WIDTH` -/
def TRUE_BOARD_WIDTH : Int := Config.BOARD_WIDTH + 2 * BORDER_WIDTH

/-- `WindowConfig.TRUE_BOARD_HEIGHT = sum(OFFSET_ROWS_TO_DRAW_HORIZONTAL) + 1`
with `OFFSET_ROWS_TO_DRAW_HORIZONTAL = [0, TITLE_BAR_HEIGHT,
BOARD_HEIGHT + BORDER_WIDTH, PLAYER_STATS_HEIGHT]`. -/
def TRUE_BOARD_HEIGHT : Int :=
  (0 + TITLE_BAR_HEIGHT + (Config.BOARD_HEIGHT + BORDER_WIDTH) + PLAYER_STATS_HEIGHT) + 1

/-- `WindowConfig.getRowsToDrawHorizontals()`: the running sums
(`itertools.accumulate`) of `OFFSET_ROWS_TO_DRAW_HORIZONTAL`. -/
def rowsToDrawHorizontals : List Int :=
  [0, 0 + TITLE_BAR_HEIGHT, 0 + TITLE_BAR_HEIGHT + (Config.BOARD_HEIGHT + BORDER_WIDTH),
   0 + TITLE_BAR_HEIGHT + (Config.BOARD_HEIGHT + BORDER_WIDTH) + PLAYER_STATS_HEIGHT]

/-- `WindowConfig.convertToTrueY(y)` -/
def convertToTrueY (y : Int) : Int := TITLE_BAR_HEIGHT + BORDER_WIDTH + y

/-- `WindowConfig.convertToTrueX(x)` -/
def convertToTrueX (x : Int) : Int := BORDER_WIDTH + x

end WindowConfig

/-- `Entity.py`: the entity state.  `id` models the identity of the Python
object (two distinct live objects never compare equal, which the model
renders as distinct `id`s); `position` is `none` until first assigned (an
attribute access then raises `AttributeError`), mirroring the class-level
class-level declaration without a value. -/
structure Entity where
  id : Nat
  symbol : String
  color : Nat
  entity_type : EntityType
  position : Option (Int × Int) := none
  ticks_since_last_move : Nat := 0
deriving DecidableEq

namespace Entity

/-- The method names the `Entity` class of `Entity.py` actually defines
(used to settle dynamic attribute lookups performed on entities by the rest
of the code; private names appear unmangled). -/
def methods : List String :=
  ["__init__", "__str__", "__log", "setInitialPosition", "getPos",
   "genNextPosOffset", "genNextPosOffsetForNonProjectile", "moveToNextPos",
   "__isOutOfBounds", "spawnProjectile", "canMoveLeft", "moveLeft",
   "canMoveRight", "moveRight", "canMoveUp", "moveUp", "canMoveDown",
   "moveDown", "__canMove", "__move", "__isProjectile",
   "__handleProjectileCollision", "__destroy"]

/-- `Entity.setInitialPosition(y, x)` -/
def setInitialPosition (e : Entity) (y x : Int) : Entity :=
  { e with position := some (y, x) }

/-- `Entity.__isOutOfBounds(y, x)`: playable-coordinate bounds test. -/
def isOutOfBounds (y x : Int) : Bool :=
  decide (x < 0) || decide (x > Config.BOARD_WIDTH - 1) ||
  decide (y < 0) || decide (y > Config.BOARD_HEIGHT - 1)

/-- `Entity.__isProjectile()` -/
def isProjectile (e : Entity) : Bool :=
  e.entity_type = EntityType.playerProjectile || e.entity_type = EntityType.enemyProjectile

/-- `Entity.__canMove(dy, dx, custom_pos)`; with `custom_pos=None` it reads
`self.position`, raising `AttributeError` when that was never set. -/
def canMove (e : Entity) (dy dx : Int) (custom_pos : Option (Int × Int)) :
    Except PyErr Bool :=
  match custom_pos with
  | some (old_y, old_x) => .ok (!isOutOfBounds (old_y + dy) (old_x + dx))
  | none =>
    match e.position with
    | some (old_y, old_x) => .ok (!isOutOfBounds (old_y + dy) (old_x + dx))
    | none => .error (.attributeError "position")

/-- `Entity.canMoveLeft(custom_pos)` -/
def canMoveLeft (e : Entity) (custom_pos : Option (Int × Int)) : Except PyErr Bool :=
  canMove e 0 (-1) custom_pos

/-- `Entity.canMoveRight(custom_pos)` -/
def canMoveRight (e : Entity) (custom_pos : Option (Int × Int)) : Except PyErr Bool :=
  canMove e 0 1 custom_pos

/-- `Entity.canMoveUp(custom_pos)` -/
def canMoveUp (e : Entity) (custom_pos : Option (Int × Int)) : Except PyErr Bool :=
  canMove e (-1) 0 custom_pos

/-- `Entity.canMoveDown(custom_pos)` -/
def canMoveDown (e : Entity) (custom_pos : Option (Int × Int)) : Except PyErr Bool :=
  canMove e 1 0 custom_pos

end Entity

-- `Borders.py`: the eight static border entities (ids 1-8 stand for the
-- eight distinct objects created at class definition time).
namespace Borders

def VERTICAL : Entity := { id := 1, symbol := "║", color := Colors.WHITE, entity_type := .border }

def HORIZONTAL : Entity := { id := 2, symbol := "═", color := Colors.WHITE, entity_type := .border }

def TOP_LEFT : Entity := { id := 3, symbol := "╔", color := Colors.WHITE, entity_type := .border }

def TOP_RIGHT : Entity := { id := 4, symbol := "╗", color := Colors.WHITE, entity_type := .border }

def BOT_LEFT : Entity := { id := 5, symbol := "╚", color := Colors.WHITE, entity_type := .border }

def BOT_RIGHT : Entity := { id := 6, symbol := "╝", color := Colors.WHITE, entity_type := .border }

def INTERSECT_LEFT : Entity := { id := 7, symbol := "╠", color := Colors.WHITE, entity_type := .border }

def INTERSECT_RIGHT : Entity := { id := 8, symbol := "╣", color := Colors.WHITE, entity_type := .border }

end Borders

-- `Entities.py`: templates and the projectile factory.
namespace Entities

/-- `Entities.PLAYER` (id 10 for the single template object). -/
def PLAYER : Entity := { id := 10, symbol := "ﾑ", color := Colors.RED, entity_type := .player }

/-- `Entities.ENEMIES`: one template per enemy color. -/
def ENEMIES : List Entity :=
  [{ id := 11, symbol := "◦", color := Colors.GREEN, entity_type := .enemy },
   { id := 12, symbol := "◦", color := Colors.YELLOW, entity_type := .enemy },
   { id := 13, symbol := "◦", color := Colors.CYAN, entity_type := .enemy },
   { id := 14, symbol := "◦", color := Colors.MAGENTA, entity_type := .enemy }]

/-- `Entities.genNewPlayerProjectile()`: always builds a fresh
`PLAYER_PROJECTILE`-typed entity (even when the caller is spawning an enemy
projectile).  Python allocates a fresh object; its identity is never
observable in the modelled code, because every placement of the new object
raises before the object can be stored anywhere reachable, so a fixed `id`
is used. -/
def genNewPlayerProjectile : Entity :=
  { id := 999, symbol := "|", color := Colors.RED, entity_type := .playerProjectile }

end Entities

/-- `Board.py`: board state.  `score` stands for the `SpaceInvaders`
game-state collaborator reached through `Board.incrementScore`
(`self.space_invaders.incrementScore()`, which does `score += 100`). -/
structure Board where
  curr_board : Int → Int → List Entity
  next_board : Int → Int → List Entity
  empty_board : Int → Int → List Entity
  instances : EntityType → List Entity
  score : Nat

namespace Board

/-- The bounds test of `Board.setEntityAtPos` (its two `assert` statements):
`convertToTrueX(0) <= true_x < TRUE_BOARD_WIDTH - 1` and
`convertToTrueY(0) <= true_y < TRUE_BOARD_HEIGHT - 1`.  Note the `y` bound
is laxer than the playable area: it lets through game rows 15 and 16 (the bottom
border row and the stats row). -/
def setBoundsOk (y x : Int) : Prop :=
  WindowConfig.convertToTrueX 0 ≤ WindowConfig.convertToTrueX x ∧
  WindowConfig.convertToTrueX x < WindowConfig.TRUE_BOARD_WIDTH - 1 ∧
  WindowConfig.convertToTrueY 0 ≤ WindowConfig.convertToTrueY y ∧
  WindowConfig.convertToTrueY y < WindowConfig.TRUE_BOARD_HEIGHT - 1

instance (y x : Int) : Decidable (setBoundsOk y x) := by
  unfold setBoundsOk; infer_instance

/-- `Board.deleteEntityReferences(entity)`:
`self.instances[entity.entity_type].remove(entity)`. -/
def deleteEntityReferences (b : Board) (e : Entity) : Except PyErr Board :=
  if e ∈ b.instances e.entity_type then
    .ok { b with instances := fun t =>
            if t = e.entity_type then (b.instances t).erase e else b.instances t }
  else .error .valueError

/-- `Board.setEntityAtPos(y, x, entity, use_curr_board)`.  In bounds with a
non-`None` entity, the cell `append` succeeds and then
`entity.setPosition(y, x)` is looked up: `Entity` defines no `setPosition`
(only `setInitialPosition`), so the call raises `AttributeError`.  Out of
bounds, a non-`None` entity is silently dropped from its roster
("Entity was moved out of bounds - Deleting") and a `None` raises. -/
def setEntityAtPos (b : Board) (y x : Int) (entity : Option Entity)
    (use_curr_board : Bool) : Except PyErr Board :=
  let true_y := WindowConfig.convertToTrueY y
  let true_x := WindowConfig.convertToTrueX x
  if setBoundsOk y x then
    match entity with
    | some e =>
      let board := if use_curr_board then b.curr_board else b.next_board
      if e ∈ board true_y true_x then
        .error (.exception "Setting position of entity already set?")
      else
        -- board[true_y][true_x].append(entity) mutates in place, then
        -- entity.setPosition(y, x) raises: "setPosition" is not among
        -- Entity.methods.  The raise is fatal, so the appended state is
        -- never observed.
        .error (.attributeError "setPosition")
    | none =>
      let board := if use_curr_board then b.curr_board else b.next_board
      let board' := fun yy xx => if yy = true_y ∧ xx = true_x then [] else board yy xx
      .ok (if use_curr_board then { b with curr_board := board' }
           else { b with next_board := board' })
  else
    match entity with
    | some e => deleteEntityReferences b e
    | none => .error (.exception "Wha-. How are you setting an out-of-bounds pos to None?")

/-- `Board.getEntityAtPos(y, x, use_next_board)` -/
def getEntityAtPos (b : Board) (y x : Int) (use_next_board : Bool) :
    Except PyErr (Option Entity) :=
  let ents := (if use_next_board then b.next_board else b.curr_board)
    (WindowConfig.convertToTrueY y) (WindowConfig.convertToTrueX x)
  if 1 < ents.length then
    .error (.exception "Do we want exception here? Should collision handlers have run at this point?")
  else .ok ents.head?

/-- `Board.incrementScore()`, forwarding to
`SpaceInvaders.incrementScore()`: `self.score += 100`. -/
def incrementScore (b : Board) : Board := { b with score := b.score + 100 }

/-- `Board.clearPosAndEntity(ent)`: reads `ent.position` (an
`AttributeError` when never set), clears that cell of the next buffer and
removes the entity from its roster. -/
def clearPosAndEntity (b : Board) (ent : Entity) : Except PyErr Board :=
  match ent.position with
  | none => .error (.attributeError "position")
  | some (y, x) => do
    let b ← setEntityAtPos b y x none false
    deleteEntityReferences b ent

end Board

namespace Entity

mutual

/-- Depth-recursive pair `Entity.genNextPosOffset` /
`Entity.genNextPosOffsetForNonProjectile` (`Entity.py`).  The dispatch is on
`entity_type`; the non-projectile "snake" policy prefers left on odd rows
and right on even rows, falls back to down, and raises when down is also
impossible.  Note the down check is `self.canMoveDown()` with no custom
position: it consults `self.position`, not the given `(curr_y, curr_x)`. -/
def genNextPosOffset (e : Entity) (curr_y curr_x : Int) (depth : Nat) :
    Except PyErr (Int × Int) :=
  if e.entity_type = EntityType.playerProjectile then .ok (-1, 0)
  else if e.entity_type = EntityType.enemyProjectile then .ok (1, 0)
  else if e.entity_type = EntityType.player ∨ e.entity_type = EntityType.enemy then
    genNextPosOffsetForNonProjectile e curr_y curr_x depth
  else .error (.exception "Tried to get the next position of an entity that does not move!")
termination_by (depth, 1)

/-- See `genNextPosOffset`. -/
def genNextPosOffsetForNonProjectile (e : Entity) (curr_y curr_x : Int) (depth : Nat) :
    Except PyErr (Int × Int) := do
  let dx : Int := if curr_y % 2 = 1 then -1 else 1
  let can_move_horizontal ←
    if dx = -1 then canMoveLeft e (some (curr_y, curr_x))
    else canMoveRight e (some (curr_y, curr_x))
  let offset ←
    if !can_move_horizontal then do
      let can_down ← canMoveDown e none
      if !can_down then
        throw (PyErr.exception "genNextPos() determined moving down is impossible! (Game over?)")
      else pure ((1 : Int), (0 : Int))
    else pure ((0 : Int), dx)
  if 1 < depth then do
    let next_y := curr_y + offset.1
    let next_x := curr_x + offset.2
    let next_offset ← genNextPosOffset e next_y next_x (depth - 1)
    pure (offset.1 + next_offset.1, offset.2 + next_offset.2)
  else pure offset
termination_by (depth, 0)

end

/-- `Entity.__destroy(board)`: clears the next-buffer cell at
`self.position`, then for enemies pops from `board.enemies_alive` - an
attribute the modular `Board` class does not define (its roster lives in
`board.instances`), so that branch raises `AttributeError`.  No roster is
touched for any other kind. -/
def destroy (b : Board) (e : Entity) : Except PyErr Board :=
  match e.position with
  | none => .error (.attributeError "position")
  | some (self_y, self_x) => do
    let b ← Board.setEntityAtPos b self_y self_x none false
    if e.entity_type = EntityType.enemy then
      -- board.enemies_alive.index(self): Board has no attribute enemies_alive
      throw (PyErr.attributeError "enemies_alive")
    else pure b

/-- `Entity.__handleProjectileCollision(board, other)` -/
def handleProjectileCollision (b : Board) (e other : Entity) : Except PyErr Board :=
  if !isProjectile e then
    -- only handled when the "self" entity is the projectile
    .ok b
  else do
    let b ← destroy b e
    let b ← destroy b other
    pure (Board.incrementScore b)

/-- `Entity.__move(board, dy, dx)`.  Out of bounds: projectiles are
destroyed silently, others raise.  Occupied destination: a projectile on
either side routes through collision handling (and then - the source has no
early return - still falls through to the placement calls); otherwise the
move raises.  Every surviving path then calls `Board.setEntityAtPos` with
the entity, which raises `AttributeError` on the missing `setPosition`, so
`self.position` is only ever updated after both placements succeed. -/
def move (b : Board) (e : Entity) (dy dx : Int) : Except PyErr (Board × Entity) :=
  match e.position with
  | none => .error (.attributeError "position")
  | some (old_y, old_x) => do
    let new_y := old_y + dy
    let new_x := old_x + dx
    if isOutOfBounds new_y new_x then
      if isProjectile e then do
        let b ← destroy b e
        pure (b, e)
      else throw (PyErr.exception "Entity is being moved out of bounds!")
    else do
      let b ←
        (do
          let entity ← Board.getEntityAtPos b new_y new_x false
          match entity with
          | some other =>
            if isProjectile e || isProjectile other then
              handleProjectileCollision b e other
            else throw (PyErr.exception "Destination cell is already occupied!")
          | none => pure b)
      let b ← Board.setEntityAtPos b old_y old_x none false
      let b ← Board.setEntityAtPos b new_y new_x (some e) false
      pure (b, { e with position := some (new_y, new_x) })

/-- `Entity.moveToNextPos(board)`: the move-cooldown throttle.  Only when
`ticks_since_last_move > TICKS_PER_ENEMY_MOVEMENT` does the entity compute
an offset and move (resetting the counter to 0); in both cases the counter
is then incremented.  The hold branch touches neither board buffer. -/
def moveToNextPos (b : Board) (e : Entity) : Except PyErr (Board × Entity) := do
  let (b, e) ←
    if Config.TICKS_PER_ENEMY_MOVEMENT < e.ticks_since_last_move then do
      match e.position with
      | none => throw (PyErr.attributeError "position")
      | some (old_y, old_x) => do
        let off ← genNextPosOffset e old_y old_x 1
        -- new_y, new_x are computed in the source but __move recomputes them
        let (b, e) ← move b e off.1 off.2
        pure (b, { e with ticks_since_last_move := 0 })
    else pure (b, e)
  pure (b, { e with ticks_since_last_move := e.ticks_since_last_move + 1 })

end Entity

namespace Board

/-- `Board.spawnProjectile(entity_pos, is_player_projectile)`: computes the
cell one step ahead, creates a fresh projectile via
`Entities.genNewPlayerProjectile()` (always `PLAYER_PROJECTILE`-typed),
places it, then appends it to the roster keyed by `is_player_projectile`. -/
def spawnProjectile (b : Board) (entity_pos : Int × Int)
    (is_player_projectile : Bool) : Except PyErr Board := do
  let off : Int × Int := if is_player_projectile then (-1, 0) else (1, 0)
  let proj_y := entity_pos.1 + off.1
  let proj_x := entity_pos.2 + off.2
  let projectile := Entities.genNewPlayerProjectile
  let b ← setEntityAtPos b proj_y proj_x (some projectile) false
  let t := if is_player_projectile then EntityType.playerProjectile
           else EntityType.enemyProjectile
  pure { b with instances := fun tt =>
          if tt = t then b.instances tt ++ [projectile] else b.instances tt }

/-- The body of the `clearCollisions` loop for one next-buffer cell at true
coordinates `(y, x)`: skip cells with fewer than 2 occupants, raise on more
than 2, and otherwise award score for each enemy occupant and clear each
occupant via `clearPosAndEntity`. -/
def resolveCell (b : Board) (y x : Int) : Except PyErr Board :=
  let entities := b.next_board y x
  if entities.length < 2 then .ok b
  else if entities.length > 2 then
    .error (.exception "Should not ever have more than two entities on one position!")
  else
    entities.foldlM
      (fun b ent =>
        let b := if ent.entity_type = EntityType.enemy then incrementScore b else b
        clearPosAndEntity b ent)
      b

/-- The row-major cell traversal of `Board.clearCollisions` over the
21 x 27 true grid (`enumerate` over rows, then cells). -/
def allCoords : List (Int × Int) :=
  (List.range 21).flatMap (fun y => (List.range 27).map (fun x => (Int.ofNat y, Int.ofNat x)))

/-- The `clearCollisions` loop: cells are visited in row-major order and
each cell is read from the board as mutated so far (Python iterates the
live list objects). -/
def clearCollisionsAux (b : Board) : List (Int × Int) → Except PyErr Board
  | [] => .ok b
  | c :: cs => do
    let b ← resolveCell b c.1 c.2
    clearCollisionsAux b cs

/-- `Board.clearCollisions()` -/
def clearCollisions (b : Board) : Except PyErr Board :=
  clearCollisionsAux b allCoords

/-- `Board.finalizePosUpdates()`: resolve collisions, then
`curr_board = deepcopy(next_board)` and `next_board = deepcopy(empty_board)`
(deep copies are value copies here). -/
def finalizePosUpdates (b : Board) : Except PyErr Board := do
  let b ← clearCollisions b
  pure { b with curr_board := b.next_board, next_board := b.empty_board }

/-- The border frame that `Board` construction builds on the pristine
`empty_board`, expressed per cell.  The construction appends at most one
border entity to each cell: vertical/intersection pieces on columns 0 and
26 for rows 1..19 (intersections on the interior horizontal rows 2 and 18),
horizontal pieces on rows 0, 2, 18, 20 for columns 1..25
(`rowsToDrawHorizontals = [0, 2, 18, 20]`), and the four corners. -/
def emptyBoardCell (y x : Int) : List Entity :=
  if 1 ≤ y ∧ y ≤ WindowConfig.TRUE_BOARD_HEIGHT - 2 ∧
     (x = 0 ∨ x = WindowConfig.TRUE_BOARD_WIDTH - 1) then
    if y = 2 ∨ y = WindowConfig.TRUE_BOARD_HEIGHT - 3 then
      if x = 0 then [Borders.INTERSECT_LEFT] else [Borders.INTERSECT_RIGHT]
    else [Borders.VERTICAL]
  else if 1 ≤ x ∧ x ≤ WindowConfig.TRUE_BOARD_WIDTH - 2 ∧
          y ∈ WindowConfig.rowsToDrawHorizontals then [Borders.HORIZONTAL]
  else if y = 0 ∧ x = 0 then [Borders.TOP_LEFT]
  else if y = 0 ∧ x = WindowConfig.TRUE_BOARD_WIDTH - 1 then [Borders.TOP_RIGHT]
  else if y = WindowConfig.TRUE_BOARD_HEIGHT - 1 ∧ x = 0 then [Borders.BOT_LEFT]
  else if y = WindowConfig.TRUE_BOARD_HEIGHT - 1 ∧ x = WindowConfig.TRUE_BOARD_WIDTH - 1 then
    [Borders.BOT_RIGHT]
  else []

/-- A true-grid cell that received a border entity at construction time:
the horizontal border rows and the two border columns. -/
def isBorderCell (y x : Int) : Prop :=
  y ∈ WindowConfig.rowsToDrawHorizontals ∨ x = 0 ∨ x = WindowConfig.TRUE_BOARD_WIDTH - 1

instance (y x : Int) : Decidable (isBorderCell y x) := by
  unfold isBorderCell; infer_instance

/-- Membership in the 21 x 27 true grid. -/
def inGrid (y x : Int) : Prop :=
  0 ≤ y ∧ y < WindowConfig.TRUE_BOARD_HEIGHT ∧ 0 ≤ x ∧ x < WindowConfig.TRUE_BOARD_WIDTH

instance (y x : Int) : Decidable (inGrid y x) := by
  unfold inGrid; infer_instance

end Board

/-- `InputType.py`: the input group enum. -/
inductive InputType where
  | movement
  | fire
  | quit
  | pause
deriving DecidableEq

namespace Entity

/-- `Entity.spawnProjectile(board)`: reads `self.position` and forwards to
`Board.spawnProjectile` with `is_player = (entity_type == PLAYER)`. -/
def spawnProjectileOnBoard (b : Board) (e : Entity) : Except PyErr Board :=
  match e.position with
  | none => .error (.attributeError "position")
  | some pos => Board.spawnProjectile b pos (e.entity_type = EntityType.player)

end Entity

namespace SpaceInvaders

/-- `curses.ERR` -/
def curses_ERR : Int := -1

/-- `curses.KEY_LEFT` -/
def KEY_LEFT : Int := 260

/-- `curses.KEY_RIGHT` -/
def KEY_RIGHT : Int := 261

/-- `SpaceInvaders.updatePlayer(pressed_key)`: returns whether the player
moved (firing does not count).  The `and` in each branch short-circuits, so
`canMove*` only runs when the key matches that branch. -/
def updatePlayer (b : Board) (player : Entity) (pressed_key : Int) :
    Except PyErr (Board × Entity × Bool) := do
  let condLeft ←
    if pressed_key = KEY_LEFT ∨ pressed_key = 97 then Entity.canMoveLeft player none
    else pure false
  if condLeft then do
    let (b, player) ← Entity.move b player 0 (-1)
    pure (b, player, true)
  else do
    let condRight ←
      if pressed_key = KEY_RIGHT ∨ pressed_key = 100 then Entity.canMoveRight player none
      else pure false
    if condRight then do
      let (b, player) ← Entity.move b player 0 1
      pure (b, player, true)
    else if pressed_key = 32 then do
      let b ← Entity.spawnProjectileOnBoard b player
      pure (b, player, false)
    else pure (b, player, false)

/-- One iteration of the `for group in InputType` loop of
`SpaceInvaders.update`: state is (board, player, is_paused, player_moved). -/
def updateStep (keys : InputType → Int) (st : Board × Entity × Bool × Bool)
    (group : InputType) : Except PyErr (Board × Entity × Bool × Bool) :=
  let (b, player, is_paused, player_moved) := st
  let pressed_key := keys group
  if pressed_key = curses_ERR then .ok st
  else
    let is_paused := if group = InputType.pause then !is_paused else is_paused
    if !is_paused ∧ (group = InputType.movement ∨ group = InputType.fire) then do
      let (b, player, m) ← updatePlayer b player pressed_key
      pure (b, player, is_paused, player_moved || m)
    else .ok (b, player, is_paused, player_moved)

/-- `SpaceInvaders.updateProjectiles()`: walk each projectile roster in
reverse and move it one row (up for player projectiles, down for enemy
projectiles).  The Python loop mutates each projectile in place; in every
non-raising path of `Entity.move` on these calls the entity value is
unchanged (a raise aborts the program), so the returned entity needs no
write-back. -/
def updateProjectiles (b : Board) : Except PyErr Board := do
  let b ← (b.instances EntityType.playerProjectile).reverse.foldlM
    (fun b p => do
      let r ← Entity.move b p (-1) 0
      pure r.1) b
  (b.instances EntityType.enemyProjectile).reverse.foldlM
    (fun b p => do
      let r ← Entity.move b p 1 0
      pure r.1) b

/-- `SpaceInvaders.updateEnemies()`: walk the enemy roster in reverse,
calling `moveToNextPos` on each; the in-place mutation of each enemy is
modelled by writing the updated entity back at its roster index. -/
def updateEnemies (b : Board) : Except PyErr Board := do
  (List.range (b.instances EntityType.enemy).length).reverse.foldlM
    (fun b i =>
      match (b.instances EntityType.enemy).get? i with
      | none => pure b
      | some e => do
        let (b, e') ← Entity.moveToNextPos b e
        pure { b with instances := fun t =>
                if t = EntityType.enemy then (b.instances t).set i e' else b.instances t })
    b

/-- `SpaceInvaders.update()`: consume one key per input group in enum order,
applying pause toggling and player movement/fire; then, when the player did
not move, call `self.player.stayStill(self.board)` - no class in the
modular sources defines `stayStill` (it is not among `Entity.methods`), so
that call raises `AttributeError`; finally, when unpaused, advance
projectiles and enemies and commit. -/
def update (b : Board) (player : Entity) (is_paused : Bool)
    (keys : InputType → Int) : Except PyErr (Board × Entity × Bool) := do
  let st ← [InputType.movement, InputType.fire, InputType.quit, InputType.pause].foldlM
    (updateStep keys) (b, player, is_paused, false)
  let (b, player, is_paused, player_moved) := st
  if !player_moved then
    -- self.player.stayStill(self.board): "stayStill" is not among
    -- Entity.methods, so the attribute lookup raises.
    throw (PyErr.attributeError "stayStill")
  else do
    if !is_paused then do
      let b ← updateProjectiles b
      let b ← updateEnemies b
      let b ← Board.finalizePosUpdates b
      pure (b, player, is_paused)
    else pure (b, player, is_paused)

end SpaceInvaders

/-! ### Invariants stated over the model, and concrete boards and entities
used by the verification below -/

/-- A board fresh out of construction: both buffers and the pristine buffer hold
exactly the border frame, all rosters empty, score 0. -/
def baseBoard : Board :=
  { curr_board := Board.emptyBoardCell, next_board := Board.emptyBoardCell,
    empty_board := Board.emptyBoardCell, instances := fun _ => [], score := 0 }

/-- An enemy-projectile-typed entity (no such object is ever built by the
factory, which always produces the player-projectile kind, but the dispatch
is specified for the kind itself). -/
def enemyProjEnt : Entity :=
  { id := 20, symbol := "|", color := Colors.RED, entity_type := .enemyProjectile }

/-- A board whose next buffer holds three distinct enemies in one cell. -/
def boardC9 : Board :=
  { baseBoard with next_board := fun yy xx =>
      if yy = 10 ∧ xx = 10 then
        [{ id := 21, symbol := "◦", color := 2, entity_type := .enemy, position := some (7, 9) },
         { id := 22, symbol := "◦", color := 3, entity_type := .enemy, position := some (7, 9) },
         { id := 23, symbol := "◦", color := 4, entity_type := .enemy, position := some (7, 9) }]
      else Board.emptyBoardCell yy xx }

/-- An enemy whose recorded position is the bottom-right playable corner. -/
def enemyAtMaxCorner : Entity :=
  { id := 30, symbol := "◦", color := Colors.GREEN, entity_type := .enemy,
    position := some (14, 24) }

/-- An enemy whose recorded position is the top-left playable cell. -/
def enemyAtOrigin : Entity :=
  { id := 31, symbol := "◦", color := Colors.GREEN, entity_type := .enemy,
    position := some (0, 0) }

/-- An enemy on a tick where its cooldown counter (0) has not exceeded the
threshold (3). -/
def enemyHold : Entity :=
  { id := 40, symbol := "◦", color := Colors.GREEN, entity_type := .enemy,
    position := some (5, 6), ticks_since_last_move := 0 }

/-- A player projectile on the top playable row with its counter past the
threshold: its move is the boundary-exit destruction, the one movement path
that returns normally, so the reset-to-1 of the counter is observable. -/
def projPastThreshold : Entity :=
  { id := 41, symbol := "|", color := Colors.RED, entity_type := .playerProjectile,
    position := some (0, 6), ticks_since_last_move := 4 }

/-- An enemy present exactly once in the enemy roster. -/
def enemyC6 : Entity :=
  { id := 50, symbol := "◦", color := Colors.GREEN, entity_type := .enemy,
    position := some (0, 0) }

/-- A board whose enemy roster is exactly `[enemyC6]`. -/
def boardC6 : Board :=
  { baseBoard with instances := fun t => if t = EntityType.enemy then [enemyC6] else [] }

/-- A live player projectile recorded at (0, 12). -/
def projC7 : Entity :=
  { id := 60, symbol := "|", color := Colors.RED, entity_type := .playerProjectile,
    position := some (0, 12) }

/-- A board whose player-projectile roster is exactly `[projC7]`. -/
def boardC7 : Board :=
  { baseBoard with instances := fun t =>
      if t = EntityType.playerProjectile then [projC7] else [] }

/-- An enemy recorded at (7, 9) occupying the single next-buffer cell
(10, 10) of its board, present once in the enemy roster. -/
def enemyC7 : Entity :=
  { id := 61, symbol := "◦", color := Colors.GREEN, entity_type := .enemy,
    position := some (7, 9) }

/-- A board where `enemyC7` occupies exactly next cell (10, 10). -/
def boardC7b : Board :=
  { baseBoard with
    next_board := fun yy xx =>
      if yy = 10 ∧ xx = 10 then [enemyC7] else Board.emptyBoardCell yy xx,
    instances := fun t => if t = EntityType.enemy then [enemyC7] else [] }

/-- First of two enemies routed into the same next cell (10, 10). -/
def enemyC4a : Entity :=
  { id := 62, symbol := "◦", color := Colors.GREEN, entity_type := .enemy,
    position := some (7, 9) }

/-- Second of two enemies routed into the same next cell (10, 10). -/
def enemyC4b : Entity :=
  { id := 63, symbol := "◦", color := Colors.YELLOW, entity_type := .enemy,
    position := some (7, 9) }

/-- A board whose next cell (10, 10) holds the two enemies above. -/
def boardC4 : Board :=
  { baseBoard with
    next_board := fun yy xx =>
      if yy = 10 ∧ xx = 10 then [enemyC4a, enemyC4b] else Board.emptyBoardCell yy xx,
    instances := fun t => if t = EntityType.enemy then [enemyC4a, enemyC4b] else [] }

/-- A player projectile routed into next cell (10, 10). -/
def projC4 : Entity :=
  { id := 64, symbol := "|", color := Colors.RED, entity_type := .playerProjectile,
    position := some (7, 9) }

/-- An enemy routed into the same next cell (10, 10). -/
def enemyC4c : Entity :=
  { id := 65, symbol := "◦", color := Colors.CYAN, entity_type := .enemy,
    position := some (7, 9) }

/-- A board whose next cell (10, 10) holds a player projectile and an
enemy, with score 0. -/
def boardC4w : Board :=
  { baseBoard with
    next_board := fun yy xx =>
      if yy = 10 ∧ xx = 10 then [projC4, enemyC4c] else Board.emptyBoardCell yy xx,
    instances := fun t =>
      if t = EntityType.playerProjectile then [projC4]
      else if t = EntityType.enemy then [enemyC4c] else [] }

/-- Position consistency of the next buffer: every occupant of a non-border
cell records exactly that cell as its position (in game coordinates).
This is the invariant the movement protocol maintains: `Entity.__move` and
`Board.spawnProjectile` only place an entity at the cell recorded as its
position. -/
def Board.posConsistent (b : Board) : Prop :=
  ∀ ty tx : Int, ¬Board.isBorderCell ty tx → ∀ e ∈ b.next_board ty tx,
    ∃ py px, e.position = some (py, px) ∧
      WindowConfig.convertToTrueY py = ty ∧ WindowConfig.convertToTrueX px = tx

/-- The border frame of the next buffer is exactly its construction-time
content (the commit protocol reseeds `next` from `empty_board` and nothing
writes to border cells). -/
def Board.borderIntact (b : Board) : Prop :=
  ∀ ty tx : Int, Board.inGrid ty tx → Board.isBorderCell ty tx →
    b.next_board ty tx = Board.emptyBoardCell ty tx

/-- A player value occupying next cell (16, 13), recorded at game
coordinates (13, 12). -/
def playerC2 : Entity :=
  { id := 80, symbol := "ﾑ", color := Colors.RED, entity_type := .player,
    position := some (13, 12) }

/-- A next buffer one tick before a commit: the border frame plus the
player at its own cell. -/
def boardC2 : Board :=
  { baseBoard with next_board := fun yy xx =>
      if yy = 16 ∧ xx = 13 then [playerC2] else Board.emptyBoardCell yy xx }

/-! ### Helper lemmas -/

theorem exceptBind_eq_ok {ε α β : Type} {x : Except ε α} {f : α → Except ε β} {c : β}
    (h : (x >>= f) = .ok c) : ∃ a, x = .ok a ∧ f a = .ok c := by
  cases x with
  | ok a => exact ⟨a, rfl, h⟩
  | error e => simp [Bind.bind, Except.bind] at h

@[simp]
theorem exceptBind_ok {ε α β : Type} (a : α) (f : α → Except ε β) :
    ((Except.ok a : Except ε α) >>= f) = f a := rfl

@[simp]
theorem exceptBind_error {ε α β : Type} (e : ε) (f : α → Except ε β) :
    ((Except.error e : Except ε α) >>= f) = .error e := rfl

@[simp]
theorem exceptPure_eq_ok {ε α : Type} (a : α) : (pure a : Except ε α) = .ok a := rfl

@[simp]
theorem exceptThrow_eq_error {ε α : Type} (e : ε) : (throw e : Except ε α) = .error e := rfl

theorem canMove_some (e : Entity) (dy dx oy ox : Int) :
    Entity.canMove e dy dx (some (oy, ox)) =
      .ok (!Entity.isOutOfBounds (oy + dy) (ox + dx)) := rfl

theorem canMove_none (e : Entity) (dy dx oy ox : Int) (h : e.position = some (oy, ox)) :
    Entity.canMove e dy dx none = .ok (!Entity.isOutOfBounds (oy + dy) (ox + dx)) := by
  unfold Entity.canMove
  rw [h]

theorem isOutOfBounds_eq_false_iff (y x : Int) :
    Entity.isOutOfBounds y x = false ↔ (0 ≤ x ∧ x ≤ 24 ∧ 0 ≤ y ∧ y ≤ 14) := by
  unfold Entity.isOutOfBounds Config.BOARD_WIDTH Config.BOARD_HEIGHT
  simp only [Bool.or_eq_false_iff, decide_eq_false_iff_not, not_lt, not_le]
  omega

theorem isOutOfBounds_eq_true_iff (y x : Int) :
    Entity.isOutOfBounds y x = true ↔ (x < 0 ∨ 24 < x ∨ y < 0 ∨ 14 < y) := by
  unfold Entity.isOutOfBounds Config.BOARD_WIDTH Config.BOARD_HEIGHT
  simp only [Bool.or_eq_true, decide_eq_true_eq]
  omega

theorem rowsToDraw_eq : WindowConfig.rowsToDrawHorizontals = [0, 2, 18, 20] := by decide

theorem TRUE_W_eq : WindowConfig.TRUE_BOARD_WIDTH = 27 := by decide

theorem TRUE_H_eq : WindowConfig.TRUE_BOARD_HEIGHT = 21 := by decide

theorem convY_eq (y : Int) : WindowConfig.convertToTrueY y = 3 + y := by
  unfold WindowConfig.convertToTrueY WindowConfig.TITLE_BAR_HEIGHT WindowConfig.BORDER_WIDTH
  omega

theorem convX_eq (x : Int) : WindowConfig.convertToTrueX x = 1 + x := by
  unfold WindowConfig.convertToTrueX WindowConfig.BORDER_WIDTH
  omega

theorem setBoundsOk_iff (y x : Int) :
    Board.setBoundsOk y x ↔ (0 ≤ x ∧ x ≤ 24 ∧ 0 ≤ y ∧ y ≤ 16) := by
  unfold Board.setBoundsOk
  rw [TRUE_W_eq, TRUE_H_eq, convY_eq, convY_eq, convX_eq, convX_eq]
  omega

theorem isBorderCell_iff (y x : Int) :
    Board.isBorderCell y x ↔ (y = 0 ∨ y = 2 ∨ y = 18 ∨ y = 20 ∨ x = 0 ∨ x = 26) := by
  unfold Board.isBorderCell
  rw [rowsToDraw_eq, TRUE_W_eq]
  simp only [List.mem_cons, List.not_mem_nil, or_false]
  omega

theorem mem_emptyBoardCell_border {e : Entity} {y x : Int}
    (h : e ∈ Board.emptyBoardCell y x) : e.entity_type = EntityType.border := by
  unfold Board.emptyBoardCell at h
  split_ifs at h <;> simp at h <;> subst h <;> rfl

theorem emptyBoardCell_of_not_border {y x : Int} (h : ¬Board.isBorderCell y x) :
    Board.emptyBoardCell y x = [] := by
  rw [isBorderCell_iff] at h
  push_neg at h
  unfold Board.emptyBoardCell
  rw [rowsToDraw_eq, TRUE_W_eq, TRUE_H_eq]
  split_ifs <;>
    first
      | rfl
      | (exfalso
         simp only [List.mem_cons, List.not_mem_nil, or_false] at *
         omega)

theorem emptyBoardCell_length_of_border {y x : Int} (hg : Board.inGrid y x)
    (hb : Board.isBorderCell y x) : (Board.emptyBoardCell y x).length = 1 := by
  rw [isBorderCell_iff] at hb
  unfold Board.inGrid at hg
  rw [TRUE_W_eq, TRUE_H_eq] at hg
  unfold Board.emptyBoardCell
  rw [rowsToDraw_eq, TRUE_W_eq, TRUE_H_eq]
  split_ifs <;>
    first
      | rfl
      | (exfalso
         simp only [List.mem_cons, List.not_mem_nil, or_false] at *
         omega)

theorem setNone_ok_eq (b : Board) (py px : Int) (h : Board.setBoundsOk py px) :
    Board.setEntityAtPos b py px none false =
      .ok { b with next_board := fun yy xx =>
        if yy = WindowConfig.convertToTrueY py ∧ xx = WindowConfig.convertToTrueX px then []
        else b.next_board yy xx } := by
  unfold Board.setEntityAtPos
  rw [if_pos h]
  rfl

theorem deleteRefs_ok_eq (b : Board) (e : Entity) (h : e ∈ b.instances e.entity_type) :
    Board.deleteEntityReferences b e =
      .ok { b with instances := fun t =>
        if t = e.entity_type then (b.instances t).erase e else b.instances t } := by
  unfold Board.deleteEntityReferences
  rw [if_pos h]

theorem clearPos_ok_eq (b : Board) (e : Entity) (py px : Int)
    (hpos : e.position = some (py, px)) (hbnd : Board.setBoundsOk py px)
    (hmem : e ∈ b.instances e.entity_type) :
    Board.clearPosAndEntity b e =
      .ok { b with
        next_board := fun yy xx =>
          if yy = WindowConfig.convertToTrueY py ∧ xx = WindowConfig.convertToTrueX px then []
          else b.next_board yy xx,
        instances := fun t =>
          if t = e.entity_type then (b.instances t).erase e else b.instances t } := by
  unfold Board.clearPosAndEntity
  rw [hpos]
  dsimp only
  rw [setNone_ok_eq b py px hbnd]
  simp only [exceptBind_ok]
  exact deleteRefs_ok_eq _ e hmem

/-- The body of the `clearCollisions` per-entity loop (score award for an
enemy occupant, then `clearPosAndEntity`), evaluated. -/
theorem resolveStep_ok_eq (b : Board) (e : Entity) (py px : Int)
    (hpos : e.position = some (py, px)) (hbnd : Board.setBoundsOk py px)
    (hmem : e ∈ b.instances e.entity_type) :
    Board.clearPosAndEntity
        (if e.entity_type = EntityType.enemy then Board.incrementScore b else b) e =
      .ok { b with
        next_board := fun yy xx =>
          if yy = WindowConfig.convertToTrueY py ∧ xx = WindowConfig.convertToTrueX px then []
          else b.next_board yy xx,
        instances := fun t =>
          if t = e.entity_type then (b.instances t).erase e else b.instances t,
        score := b.score + (if e.entity_type = EntityType.enemy then 100 else 0) } := by
  split_ifs with hc
  · rw [clearPos_ok_eq (Board.incrementScore b) e py px hpos hbnd hmem]
    rfl
  · rw [clearPos_ok_eq b e py px hpos hbnd hmem]
    rfl

theorem resolveCell_skip {b : Board} {y x : Int} (h : (b.next_board y x).length < 2) :
    Board.resolveCell b y x = .ok b := by
  unfold Board.resolveCell
  rw [if_pos h]

theorem setNone_ok_inv {b : Board} {py px : Int} {b1 : Board}
    (h : Board.setEntityAtPos b py px none false = .ok b1) :
    b1 = { b with next_board := fun yy xx =>
      if yy = WindowConfig.convertToTrueY py ∧ xx = WindowConfig.convertToTrueX px then []
      else b.next_board yy xx } := by
  by_cases hb : Board.setBoundsOk py px
  · rw [setNone_ok_eq b py px hb] at h
    simp only [Except.ok.injEq] at h
    exact h.symm
  · unfold Board.setEntityAtPos at h
    rw [if_neg hb] at h
    simp at h

theorem deleteRefs_ok_inv {b : Board} {e : Entity} {b2 : Board}
    (h : Board.deleteEntityReferences b e = .ok b2) :
    b2.curr_board = b.curr_board ∧ b2.next_board = b.next_board ∧
    b2.empty_board = b.empty_board := by
  unfold Board.deleteEntityReferences at h
  split_ifs at h
  simp only [Except.ok.injEq] at h
  subst h
  exact ⟨rfl, rfl, rfl⟩

theorem clearPos_ok_inv {b : Board} {e : Entity} {b2 : Board}
    (h : Board.clearPosAndEntity b e = .ok b2) :
    ∃ py px, e.position = some (py, px) ∧
      b2.curr_board = b.curr_board ∧ b2.empty_board = b.empty_board ∧
      b2.next_board (WindowConfig.convertToTrueY py) (WindowConfig.convertToTrueX px) = [] ∧
      ∀ ty tx, ¬(ty = WindowConfig.convertToTrueY py ∧ tx = WindowConfig.convertToTrueX px) →
        b2.next_board ty tx = b.next_board ty tx := by
  unfold Board.clearPosAndEntity at h
  rcases hpos : e.position with _ | ⟨py, px⟩ <;> rw [hpos] at h
  · simp at h
  · dsimp only at h
    obtain ⟨b1, h1, h2⟩ := exceptBind_eq_ok h
    have hb1 := setNone_ok_inv h1
    subst hb1
    obtain ⟨hcurr, hnext, hempty⟩ := deleteRefs_ok_inv h2
    refine ⟨py, px, rfl, hcurr, hempty, ?_, ?_⟩
    · rw [hnext]
      simp
    · intro ty tx hne
      rw [hnext]
      simp only [if_neg hne]

theorem scoreAdj_next (b : Board) (c : Prop) [Decidable c] :
    (if c then Board.incrementScore b else b).next_board = b.next_board := by
  split_ifs <;> rfl

theorem scoreAdj_curr (b : Board) (c : Prop) [Decidable c] :
    (if c then Board.incrementScore b else b).curr_board = b.curr_board := by
  split_ifs <;> rfl

theorem scoreAdj_empty (b : Board) (c : Prop) [Decidable c] :
    (if c then Board.incrementScore b else b).empty_board = b.empty_board := by
  split_ifs <;> rfl

theorem resolveCell_ok_inv {b b2 : Board} {y x : Int}
    (h : Board.resolveCell b y x = .ok b2)
    (hcons : ∀ e ∈ b.next_board y x, ∃ py px, e.position = some (py, px) ∧
      WindowConfig.convertToTrueY py = y ∧ WindowConfig.convertToTrueX px = x) :
    (((b.next_board y x).length < 2 ∧ b2 = b) ∨ b2.next_board y x = []) ∧
    (∀ ty tx, ¬(ty = y ∧ tx = x) → b2.next_board ty tx = b.next_board ty tx) ∧
    b2.curr_board = b.curr_board ∧ b2.empty_board = b.empty_board := by
  unfold Board.resolveCell at h
  by_cases hlen : (b.next_board y x).length < 2
  · rw [if_pos hlen] at h
    simp only [Except.ok.injEq] at h
    subst h
    exact ⟨Or.inl ⟨hlen, rfl⟩, fun _ _ _ => rfl, rfl, rfl⟩
  · rw [if_neg hlen] at h
    by_cases hlen2 : (b.next_board y x).length > 2
    · rw [if_pos hlen2] at h
      simp at h
    · rw [if_neg hlen2] at h
      have hlen' : (b.next_board y x).length = 2 := by omega
      obtain ⟨e1, e2, hcell⟩ := List.length_eq_two.1 hlen'
      rw [hcell] at h
      simp only [List.foldlM_cons, List.foldlM_nil] at h
      obtain ⟨b1, h1, hrest⟩ := exceptBind_eq_ok h
      obtain ⟨bb2, h2, hpure⟩ := exceptBind_eq_ok hrest
      simp only [exceptPure_eq_ok, Except.ok.injEq] at hpure
      subst hpure
      obtain ⟨py1, px1, hpos1, hcurr1, hempty1, hcell1, hother1⟩ := clearPos_ok_inv h1
      obtain ⟨py2, px2, hpos2, hcurr2, hempty2, hcell2, hother2⟩ := clearPos_ok_inv h2
      rw [scoreAdj_next] at hother1
      rw [scoreAdj_curr] at hcurr1
      rw [scoreAdj_empty] at hempty1
      rw [scoreAdj_next] at hother2
      rw [scoreAdj_curr] at hcurr2
      rw [scoreAdj_empty] at hempty2
      have he1 : e1 ∈ b.next_board y x := by rw [hcell]; simp
      have he2 : e2 ∈ b.next_board y x := by rw [hcell]; simp
      obtain ⟨qy1, qx1, hq1, hcy1, hcx1⟩ := hcons e1 he1
      obtain ⟨qy2, qx2, hq2, hcy2, hcx2⟩ := hcons e2 he2
      rw [hpos1] at hq1
      rw [hpos2] at hq2
      simp only [Option.some.injEq, Prod.mk.injEq] at hq1 hq2
      obtain ⟨hqy1, hqx1⟩ := hq1
      obtain ⟨hqy2, hqx2⟩ := hq2
      subst hqy1; subst hqx1; subst hqy2; subst hqx2
      rw [hcy1, hcx1] at hcell1 hother1
      rw [hcy2, hcx2] at hcell2 hother2
      refine ⟨Or.inr hcell2, ?_, by rw [hcurr2, hcurr1], by rw [hempty2, hempty1]⟩
      intro ty tx hne
      rw [hother2 ty tx hne, hother1 ty tx hne]

theorem clearAux_inv :
    ∀ (cs : List (Int × Int)) (b b2 : Board),
      (∀ c ∈ cs, Board.inGrid c.1 c.2) →
      Board.posConsistent b → Board.borderIntact b →
      Board.clearCollisionsAux b cs = .ok b2 →
      (∀ c ∈ cs, (b2.next_board c.1 c.2).length ≤ 1) ∧
      (∀ ty tx, b2.next_board ty tx = b.next_board ty tx ∨ b2.next_board ty tx = []) ∧
      (∀ ty tx, Board.inGrid ty tx → Board.isBorderCell ty tx →
        b2.next_board ty tx = b.next_board ty tx) ∧
      b2.curr_board = b.curr_board ∧ b2.empty_board = b.empty_board := by
  intro cs
  induction cs with
  | nil =>
    intro b b2 _ _ _ h
    unfold Board.clearCollisionsAux at h
    simp only [Except.ok.injEq] at h
    subst h
    exact ⟨by simp, fun _ _ => Or.inl rfl, fun _ _ _ _ => rfl, rfl, rfl⟩
  | cons c cs ih =>
    intro b b2 hgrid hpc hbi h
    unfold Board.clearCollisionsAux at h
    obtain ⟨b1, h1, hrest⟩ := exceptBind_eq_ok h
    have hgridc : Board.inGrid c.1 c.2 := hgrid c (List.mem_cons_self c cs)
    have hgridcs : ∀ c' ∈ cs, Board.inGrid c'.1 c'.2 :=
      fun c' hc' => hgrid c' (List.mem_cons_of_mem c hc')
    by_cases hborder : Board.isBorderCell c.1 c.2
    · have hlen : (b.next_board c.1 c.2).length < 2 := by
        rw [hbi c.1 c.2 hgridc hborder]
        rw [emptyBoardCell_length_of_border hgridc hborder]
        omega
      rw [resolveCell_skip hlen] at h1
      simp only [Except.ok.injEq] at h1
      subst h1
      obtain ⟨ih1, ih2, ih3, ih4, ih5⟩ := ih b b2 hgridcs hpc hbi hrest
      refine ⟨?_, ih2, ih3, ih4, ih5⟩
      intro c' hc'
      rcases List.mem_cons.1 hc' with hc' | hc'
      · subst hc'
        rcases ih2 c'.1 c'.2 with hsame | hnil
        · rw [hsame]; omega
        · rw [hnil]; simp
      · exact ih1 c' hc'
    · have hcons := hpc c.1 c.2 hborder
      obtain ⟨hfirst, hother, hcurr, hempty⟩ := resolveCell_ok_inv h1 hcons
      have hor : ∀ ty tx, b1.next_board ty tx = b.next_board ty tx ∨ b1.next_board ty tx = [] := by
        intro ty tx
        by_cases hc : ty = c.1 ∧ tx = c.2
        · obtain ⟨h1', h2'⟩ := hc
          subst h1'; subst h2'
          rcases hfirst with ⟨_, hb1⟩ | hnil
          · subst hb1; exact Or.inl rfl
          · exact Or.inr hnil
        · exact Or.inl (hother ty tx hc)
      have hpc1 : Board.posConsistent b1 := by
        intro ty tx hnb e he
        rcases hor ty tx with hsame | hnil
        · exact hpc ty tx hnb e (hsame ▸ he)
        · rw [hnil] at he
          exact absurd he (List.not_mem_nil e)
      have hbi1 : Board.borderIntact b1 := by
        intro ty tx hg hbc
        have hne : ¬(ty = c.1 ∧ tx = c.2) := by
          rintro ⟨h1', h2'⟩
          subst h1'; subst h2'
          exact hborder hbc
        rw [hother ty tx hne]
        exact hbi ty tx hg hbc
      obtain ⟨ih1, ih2, ih3, ih4, ih5⟩ := ih b1 b2 hgridcs hpc1 hbi1 hrest
      refine ⟨?_, ?_, ?_, by rw [ih4, hcurr], by rw [ih5, hempty]⟩
      · intro c' hc'
        rcases List.mem_cons.1 hc' with hc' | hc'
        · subst hc'
          rcases ih2 c'.1 c'.2 with hsame | hnil
          · rw [hsame]
            rcases hfirst with ⟨hlt, hb1⟩ | hnil1
            · subst hb1; omega
            · rw [hnil1]; simp
          · rw [hnil]; simp
        · exact ih1 c' hc'
      · intro ty tx
        rcases ih2 ty tx with hsame | hnil
        · rw [hsame]; exact hor ty tx
        · exact Or.inr hnil
      · intro ty tx hg hbc
        rw [ih3 ty tx hg hbc]
        have hne : ¬(ty = c.1 ∧ tx = c.2) := by
          rintro ⟨h1', h2'⟩
          subst h1'; subst h2'
          exact hborder hbc
        exact hother ty tx hne

theorem mem_allCoords (p : Int × Int) :
    p ∈ Board.allCoords ↔ Board.inGrid p.1 p.2 := by
  obtain ⟨y, x⟩ := p
  unfold Board.allCoords Board.inGrid
  rw [TRUE_W_eq, TRUE_H_eq]
  rw [List.mem_flatMap]
  constructor
  · rintro ⟨a, ha, hmem⟩
    rw [List.mem_range] at ha
    rw [List.mem_map] at hmem
    obtain ⟨bb, hbb, heq⟩ := hmem
    rw [List.mem_range] at hbb
    rw [Prod.mk.injEq] at heq
    obtain ⟨h1, h2⟩ := heq
    subst h1; subst h2
    simp only [Int.ofNat_eq_natCast]
    exact ⟨by omega, by omega, by omega, by omega⟩
  · rintro ⟨hy0, hy, hx0, hx⟩
    refine ⟨y.toNat, ?_, ?_⟩
    · rw [List.mem_range]; omega
    · rw [List.mem_map]
      refine ⟨x.toNat, ?_, ?_⟩
      · rw [List.mem_range]; omega
      · rw [Prod.mk.injEq]
        simp only [Int.ofNat_eq_natCast]
        constructor <;> omega

theorem clearAux_all_skip :
    ∀ (cs : List (Int × Int)) (b : Board),
      (∀ c ∈ cs, (b.next_board c.1 c.2).length < 2) →
      Board.clearCollisionsAux b cs = .ok b := by
  intro cs
  induction cs with
  | nil => intro b _; rfl
  | cons c cs ih =>
    intro b h
    unfold Board.clearCollisionsAux
    rw [resolveCell_skip (h c (List.mem_cons_self c cs))]
    simp only [exceptBind_ok]
    exact ih b (fun c' hc' => h c' (List.mem_cons_of_mem c hc'))

theorem updateStep_err (keys : InputType → Int) (st : Board × Entity × Bool × Bool)
    (g : InputType) (h : keys g = SpaceInvaders.curses_ERR) :
    SpaceInvaders.updateStep keys st g = .ok st := by
  obtain ⟨b, p, ip, mv⟩ := st
  unfold SpaceInvaders.updateStep
  dsimp only
  rw [if_pos h]

theorem updateStep_quit (keys : InputType → Int) (b : Board) (p : Entity) (ip mv : Bool) :
    SpaceInvaders.updateStep keys (b, p, ip, mv) InputType.quit = .ok (b, p, ip, mv) := by
  unfold SpaceInvaders.updateStep
  by_cases h : keys InputType.quit = SpaceInvaders.curses_ERR <;> simp [h]

theorem updateStep_pause (keys : InputType → Int) (b : Board) (p : Entity) (ip mv : Bool) :
    SpaceInvaders.updateStep keys (b, p, ip, mv) InputType.pause =
      .ok (b, p, if keys InputType.pause = SpaceInvaders.curses_ERR then ip else !ip, mv) := by
  unfold SpaceInvaders.updateStep
  by_cases h : keys InputType.pause = SpaceInvaders.curses_ERR <;> simp [h]

theorem updateStep_paused_skip (keys : InputType → Int) (b : Board) (p : Entity) (mv : Bool)
    (g : InputType) (hg : g = InputType.movement ∨ g = InputType.fire) :
    SpaceInvaders.updateStep keys (b, p, true, mv) g = .ok (b, p, true, mv) := by
  unfold SpaceInvaders.updateStep
  rcases hg with h | h <;> subst h
  · by_cases h : keys InputType.movement = SpaceInvaders.curses_ERR <;> simp [h]
  · by_cases h : keys InputType.fire = SpaceInvaders.curses_ERR <;> simp [h]

/-! ### C1 -/

/-- C1: for every in-bounds placement of a non-None entity via
`Board.setEntityAtPos` (the entity not already in the target cell, so the
`append` path is taken), the method calls `entity.setPosition(y, x)`, which
`Entity` does not define (`Entity` only defines `setInitialPosition`), so
the placement raises `AttributeError` instead of completing; no position
field is updated through this path since the call never returns normally. -/
theorem C1_setEntityAtPos_raises_attributeError :
    ("setPosition" ∉ Entity.methods ∧ "setInitialPosition" ∈ Entity.methods) ∧
    ∀ (b : Board) (y x : Int) (e : Entity) (u : Bool),
      Board.setBoundsOk y x →
      e ∉ (if u then b.curr_board else b.next_board)
            (WindowConfig.convertToTrueY y) (WindowConfig.convertToTrueX x) →
      Board.setEntityAtPos b y x (some e) u = .error (.attributeError "setPosition") := by
  refine ⟨⟨by decide, by decide⟩, ?_⟩
  intro b y x e u hb hmem
  unfold Board.setEntityAtPos
  rw [if_pos hb]
  dsimp only
  rw [if_neg hmem]

/-- Witness for C1: the very first placement performed during Board
construction, the player at the configured start cell
`(BOARD_HEIGHT - 1, BOARD_WIDTH // 2) = (14, 12)` on the current buffer. -/
theorem C1_witness :
    Board.setEntityAtPos baseBoard 14 12 (some Entities.PLAYER) true =
      .error (.attributeError "setPosition") :=
  C1_setEntityAtPos_raises_attributeError.2 baseBoard 14 12 Entities.PLAYER true
    (by decide) (by decide)

/-! ### C2 -/

/-- C2: after any completed commit (`Board.finalizePosUpdates`), given the
protocol invariants on the next buffer (occupants of non-border cells sit
at their own recorded positions; border cells still hold exactly their
construction-time content), every cell of the new current buffer holds 0 or 1
occupants, and every border cell holds exactly its one fixed border
entity. -/
theorem C2_single_occupancy_after_commit :
    ∀ (b b2 : Board), Board.posConsistent b → Board.borderIntact b →
      Board.finalizePosUpdates b = .ok b2 →
      ∀ ty tx : Int, Board.inGrid ty tx →
        (b2.curr_board ty tx).length ≤ 1 ∧
        (Board.isBorderCell ty tx → b2.curr_board ty tx = Board.emptyBoardCell ty tx) := by
  intro b b2 hpc hbi h ty tx hg
  unfold Board.finalizePosUpdates at h
  obtain ⟨b1, h1, h2⟩ := exceptBind_eq_ok h
  simp only [exceptPure_eq_ok, Except.ok.injEq] at h2
  subst h2
  unfold Board.clearCollisions at h1
  obtain ⟨hm1, hm2, hm3, hm4, hm5⟩ :=
    clearAux_inv Board.allCoords b b1 (fun c hc => (mem_allCoords c).1 hc) hpc hbi h1
  constructor
  · exact hm1 (ty, tx) ((mem_allCoords (ty, tx)).2 hg)
  · intro hbc
    have hobs : b1.next_board ty tx = b.next_board ty tx := hm3 ty tx hg hbc
    show b1.next_board ty tx = Board.emptyBoardCell ty tx
    rw [hobs]
    exact hbi ty tx hg hbc

theorem boardC2_posConsistent : Board.posConsistent boardC2 := by
  intro ty tx hnb e he
  by_cases hc : ty = 16 ∧ tx = 13
  · obtain ⟨h1, h2⟩ := hc
    subst h1; subst h2
    have he' : e ∈ [playerC2] := he
    rw [List.mem_singleton] at he'
    subst he'
    exact ⟨13, 12, rfl, by decide, by decide⟩
  · exfalso
    have he' : e ∈ Board.emptyBoardCell ty tx := by
      have : boardC2.next_board ty tx = Board.emptyBoardCell ty tx := by
        show (if ty = 16 ∧ tx = 13 then [playerC2] else Board.emptyBoardCell ty tx) = _
        rw [if_neg hc]
      rw [this] at he
      exact he
    rw [emptyBoardCell_of_not_border hnb] at he'
    exact List.not_mem_nil e he'

theorem boardC2_borderIntact : Board.borderIntact boardC2 := by
  intro ty tx hg hbc
  show (if ty = 16 ∧ tx = 13 then [playerC2] else Board.emptyBoardCell ty tx) = _
  rw [if_neg ?_]
  rintro ⟨h1, h2⟩
  subst h1; subst h2
  rw [isBorderCell_iff] at hbc
  omega

set_option maxRecDepth 10000 in
theorem boardC2_finalize :
    Board.finalizePosUpdates boardC2 =
      .ok { boardC2 with
            curr_board := boardC2.next_board,
            next_board := boardC2.empty_board } := by
  unfold Board.finalizePosUpdates Board.clearCollisions
  rw [clearAux_all_skip Board.allCoords boardC2 (by decide)]
  rfl

/-- Witness for C2: the committed board above - the player's cell holds 1
occupant and a border cell holds exactly its border entity. -/
theorem C2_witness :
    (({ boardC2 with
        curr_board := boardC2.next_board,
        next_board := boardC2.empty_board } : Board).curr_board 16 13).length ≤ 1 ∧
    (({ boardC2 with
        curr_board := boardC2.next_board,
        next_board := boardC2.empty_board } : Board).curr_board 0 0 =
      Board.emptyBoardCell 0 0) :=
  ⟨(C2_single_occupancy_after_commit boardC2 _ boardC2_posConsistent boardC2_borderIntact
      boardC2_finalize 16 13 (by decide)).1,
   (C2_single_occupancy_after_commit boardC2 _ boardC2_posConsistent boardC2_borderIntact
      boardC2_finalize 0 0 (by decide)).2 (by rw [isBorderCell_iff]; omega)⟩


/-! ### C3 -/

/-- Counterexample for C3: the depth-1 offset is NOT a pure function of the
given (row, col) and the kind.  Two enemies queried at the same playable
position (14, 24) - an even row whose right move leaves playable bounds,
and from which moving down also leaves playable bounds - give different
results, because the forced-down legality check reads `self.position`
rather than the given coordinates: the entity recorded at (14, 24) raises
the fatal game-over exception as the claim demands, but the entity recorded
at (0, 0) returns the offset (+1, 0), which the claim says must not happen. -/
theorem C3_counterexample :
    Entity.genNextPosOffset enemyAtMaxCorner 14 24 1 =
      .error (.exception "genNextPos() determined moving down is impossible! (Game over?)") ∧
    Entity.genNextPosOffset enemyAtOrigin 14 24 1 = .ok (1, 0) := by
  constructor <;>
  · unfold Entity.genNextPosOffset Entity.genNextPosOffsetForNonProjectile
    simp [Entity.canMoveRight, Entity.canMoveDown, Entity.canMove,
      enemyAtMaxCorner, enemyAtOrigin, Entity.isOutOfBounds, Config.BOARD_WIDTH,
      Config.BOARD_HEIGHT]

/-- C3 amended: for kinds Player and Enemy at a playable (row, col), and
provided the entity's recorded position equals the given (row, col) (the
forced-down legality check consults `self.position`, not the given
coordinates), the depth-1 offset follows the snake cases: on an odd row
`(0, -1)` when moving left stays in playable bounds, on an even row
`(0, +1)` when moving right stays in playable bounds; when the preferred
horizontal move would leave playable bounds the offset is `(+1, 0)` if the
row below exists, and on the last playable row the computation raises the
fatal game-over exception instead of returning an offset. -/
theorem C3_snake_policy_with_consistent_position :
    ∀ (e : Entity) (row col : Int),
      (e.entity_type = EntityType.player ∨ e.entity_type = EntityType.enemy) →
      e.position = some (row, col) →
      0 ≤ row → row ≤ 14 → 0 ≤ col → col ≤ 24 →
      (row % 2 = 1 → 1 ≤ col → Entity.genNextPosOffset e row col 1 = .ok (0, -1)) ∧
      (row % 2 = 0 → col ≤ 23 → Entity.genNextPosOffset e row col 1 = .ok (0, 1)) ∧
      (((row % 2 = 1 ∧ col = 0) ∨ (row % 2 = 0 ∧ col = 24)) → row ≤ 13 →
        Entity.genNextPosOffset e row col 1 = .ok (1, 0)) ∧
      (((row % 2 = 1 ∧ col = 0) ∨ (row % 2 = 0 ∧ col = 24)) → row = 14 →
        Entity.genNextPosOffset e row col 1 =
          .error (.exception "genNextPos() determined moving down is impossible! (Game over?)")) := by
  intro e row col hkind hpos h0r hr14 h0c hc24
  have hdisp : Entity.genNextPosOffset e row col 1 =
      Entity.genNextPosOffsetForNonProjectile e row col 1 := by
    unfold Entity.genNextPosOffset
    rcases hkind with h | h <;> simp [h]
  refine ⟨fun hodd hc => ?_, fun heven hc => ?_, fun hcase hrow => ?_, fun hcase hrow => ?_⟩
  · rw [hdisp]
    unfold Entity.genNextPosOffsetForNonProjectile
    rw [if_pos hodd]
    have hh : Entity.canMoveLeft e (some (row, col)) = .ok true := by
      unfold Entity.canMoveLeft
      rw [canMove_some, show Entity.isOutOfBounds (row + 0) (col + -1) = false from
        (isOutOfBounds_eq_false_iff _ _).2 ⟨by omega, by omega, by omega, by omega⟩]
      rfl
    simp [hh]
  · rw [hdisp]
    unfold Entity.genNextPosOffsetForNonProjectile
    rw [if_neg (by omega)]
    have hh : Entity.canMoveRight e (some (row, col)) = .ok true := by
      unfold Entity.canMoveRight
      rw [canMove_some, show Entity.isOutOfBounds (row + 0) (col + 1) = false from
        (isOutOfBounds_eq_false_iff _ _).2 ⟨by omega, by omega, by omega, by omega⟩]
      rfl
    simp [hh]
    omega
  · rw [hdisp]
    unfold Entity.genNextPosOffsetForNonProjectile
    have hdown : Entity.canMoveDown e none = .ok true := by
      unfold Entity.canMoveDown
      rw [canMove_none e 1 0 row col hpos,
        show Entity.isOutOfBounds (row + 1) (col + 0) = false from
        (isOutOfBounds_eq_false_iff _ _).2 ⟨by omega, by omega, by omega, by omega⟩]
      rfl
    rcases hcase with ⟨hodd, hc0⟩ | ⟨heven, hc24'⟩
    · rw [if_pos hodd]
      have hh : Entity.canMoveLeft e (some (row, col)) = .ok false := by
        unfold Entity.canMoveLeft
        rw [canMove_some, show Entity.isOutOfBounds (row + 0) (col + -1) = true from
          (isOutOfBounds_eq_true_iff _ _).2 (by omega)]
        rfl
      simp [hh, hdown]
    · rw [if_neg (by omega)]
      have hh : Entity.canMoveRight e (some (row, col)) = .ok false := by
        unfold Entity.canMoveRight
        rw [canMove_some, show Entity.isOutOfBounds (row + 0) (col + 1) = true from
          (isOutOfBounds_eq_true_iff _ _).2 (by omega)]
        rfl
      simp [hh, hdown]
  · rw [hdisp]
    unfold Entity.genNextPosOffsetForNonProjectile
    have hdown : Entity.canMoveDown e none = .ok false := by
      unfold Entity.canMoveDown
      rw [canMove_none e 1 0 row col hpos,
        show Entity.isOutOfBounds (row + 1) (col + 0) = true from
        (isOutOfBounds_eq_true_iff _ _).2 (by omega)]
      rfl
    rcases hcase with ⟨hodd, hc0⟩ | ⟨heven, hc24'⟩
    · rw [if_pos hodd]
      have hh : Entity.canMoveLeft e (some (row, col)) = .ok false := by
        unfold Entity.canMoveLeft
        rw [canMove_some, show Entity.isOutOfBounds (row + 0) (col + -1) = true from
          (isOutOfBounds_eq_true_iff _ _).2 (by omega)]
        rfl
      simp [hh, hdown]
    · rw [if_neg (by omega)]
      have hh : Entity.canMoveRight e (some (row, col)) = .ok false := by
        unfold Entity.canMoveRight
        rw [canMove_some, show Entity.isOutOfBounds (row + 0) (col + 1) = true from
          (isOutOfBounds_eq_true_iff _ _).2 (by omega)]
        rfl
      simp [hh, hdown]

/-- Witness for C3: the enemy recorded at (0, 0) queried at its own
position, an even row with a legal right move, yields offset (0, +1). -/
theorem C3_witness :
    Entity.genNextPosOffset enemyAtOrigin 0 0 1 = .ok (0, 1) :=
  (C3_snake_policy_with_consistent_position enemyAtOrigin 0 0 (Or.inr rfl) rfl
    (by decide) (by decide) (by decide) (by decide)).2.1 (by decide) (by decide)

/-! ### C4 -/

/-- Counterexample for C4: a 2-occupant cell in which NEITHER occupant is a
projectile (two enemies) is resolved without any error - the claim requires
an IllegalCollisionError here - and both enemies are destroyed with the
score incremented twice, to 200. -/
theorem C4_counterexample :
    (Board.resolveCell boardC4 10 10).toOption.map
      (fun b => (b.score, b.next_board 10 10, b.instances EntityType.enemy)) =
      some (200, [], []) := by
  decide

/-- C4 amended: a next-buffer cell with exactly 2 occupants is resolved
the same way regardless of the occupants' kinds - there is no
illegal-collision check: resolution succeeds even when neither occupant is
a projectile, both occupants are destroyed (removed from their rosters and
the cell cleared), and the score increases by exactly 100 per destroyed
occupant of kind Enemy (so a PlayerProjectile/Enemy collision from score 0
yields 100 - and an Enemy/Enemy pair yields 200 instead of an error). -/
theorem C4_two_occupants_destroyed_and_scored :
    ∀ (b : Board) (py px : Int) (e1 e2 : Entity),
      b.next_board (WindowConfig.convertToTrueY py) (WindowConfig.convertToTrueX px) = [e1, e2] →
      e1.position = some (py, px) → e2.position = some (py, px) →
      Board.setBoundsOk py px →
      e1 ≠ e2 →
      (b.instances e1.entity_type).count e1 = 1 →
      (b.instances e2.entity_type).count e2 = 1 →
      ∃ b', Board.resolveCell b
          (WindowConfig.convertToTrueY py) (WindowConfig.convertToTrueX px) = .ok b' ∧
        b'.next_board (WindowConfig.convertToTrueY py) (WindowConfig.convertToTrueX px) = [] ∧
        e1 ∉ b'.instances e1.entity_type ∧
        e2 ∉ b'.instances e2.entity_type ∧
        b'.score = b.score +
          100 * List.countP (fun e => decide (e.entity_type = EntityType.enemy)) [e1, e2] := by
  intro b py px e1 e2 hcell hpos1 hpos2 hbnd hne hcount1 hcount2
  have hmem1 : e1 ∈ b.instances e1.entity_type := by
    rw [← List.count_pos_iff]; omega
  have hmem2 : e2 ∈ b.instances e2.entity_type := by
    rw [← List.count_pos_iff]; omega
  unfold Board.resolveCell
  rw [hcell]
  rw [if_neg (by simp), if_neg (by simp)]
  simp only [List.foldlM_cons, List.foldlM_nil]
  rw [resolveStep_ok_eq b e1 py px hpos1 hbnd hmem1]
  simp only [exceptBind_ok]
  have hstep2 := resolveStep_ok_eq
    { b with
      next_board := fun yy xx =>
        if yy = WindowConfig.convertToTrueY py ∧ xx = WindowConfig.convertToTrueX px then []
        else b.next_board yy xx,
      instances := fun t =>
        if t = e1.entity_type then (b.instances t).erase e1 else b.instances t,
      score := b.score + (if e1.entity_type = EntityType.enemy then 100 else 0) }
    e2 py px hpos2 hbnd
    (by
      dsimp only
      by_cases ht : e2.entity_type = e1.entity_type
      · rw [if_pos ht]
        exact (List.mem_erase_of_ne hne.symm).2 hmem2
      · rw [if_neg ht]
        exact hmem2)
  rw [hstep2]
  simp only [exceptBind_ok, exceptPure_eq_ok]
  have hnotin1 : e1 ∉ (b.instances e1.entity_type).erase e1 := by
    intro hin
    have hcnt := List.count_erase_self e1 (b.instances e1.entity_type)
    rw [hcount1] at hcnt
    have := List.count_pos_iff.2 hin
    omega
  refine ⟨_, rfl, ?_, ?_, ?_, ?_⟩
  · dsimp only
    rw [if_pos ⟨rfl, rfl⟩]
  · dsimp only
    by_cases ht : e1.entity_type = e2.entity_type
    · rw [if_pos ht, if_pos rfl]
      intro hin
      exact hnotin1 (List.mem_of_mem_erase hin)
    · rw [if_neg ht, if_pos rfl]
      exact hnotin1
  · dsimp only
    rw [if_pos rfl]
    have hcntB1 : ((if e2.entity_type = e1.entity_type then
        (b.instances e2.entity_type).erase e1 else b.instances e2.entity_type)).count e2 = 1 := by
      split_ifs with ht
      · rw [List.count_erase_of_ne hne.symm]
        exact hcount2
      · exact hcount2
    intro hin
    split_ifs at hin hcntB1 with ht
    · have hcnt := List.count_erase_self e2 ((b.instances e2.entity_type).erase e1)
      rw [hcntB1] at hcnt
      have := List.count_pos_iff.2 hin
      omega
    · have hcnt := List.count_erase_self e2 (b.instances e2.entity_type)
      rw [hcntB1] at hcnt
      have := List.count_pos_iff.2 hin
      omega
  · dsimp only
    by_cases h1 : e1.entity_type = EntityType.enemy <;>
      by_cases h2 : e2.entity_type = EntityType.enemy <;>
        simp [h1, h2, List.countP_cons, List.countP_nil]

/-- Witness for C4: the PlayerProjectile/Enemy collision from score 0 -
resolution succeeds, both are destroyed, and the score becomes
0 + 100 * 1. -/
theorem C4_witness :
    ∃ b', Board.resolveCell boardC4w
        (WindowConfig.convertToTrueY 7) (WindowConfig.convertToTrueX 9) = .ok b' ∧
      b'.next_board (WindowConfig.convertToTrueY 7) (WindowConfig.convertToTrueX 9) = [] ∧
      projC4 ∉ b'.instances projC4.entity_type ∧
      enemyC4c ∉ b'.instances enemyC4c.entity_type ∧
      b'.score = boardC4w.score +
        100 * List.countP (fun e => decide (e.entity_type = EntityType.enemy)) [projC4, enemyC4c] :=
  C4_two_occupants_destroyed_and_scored boardC4w 7 9 projC4 enemyC4c
    (by decide) rfl rfl (by decide) (by decide) (by decide) (by decide)

/-! ### C5 -/

/-- C5: the next-position offset dispatches purely on kind: `(-1, 0)` for
every PlayerProjectile and `(+1, 0)` for every EnemyProjectile regardless
of position (and of depth), and it fails with the immovable-entity error
for the remaining kinds, Obstacle and Border. -/
theorem C5_offset_dispatch_on_kind :
    ∀ (e : Entity) (y x : Int) (d : Nat),
      (e.entity_type = EntityType.playerProjectile →
        Entity.genNextPosOffset e y x d = .ok (-1, 0)) ∧
      (e.entity_type = EntityType.enemyProjectile →
        Entity.genNextPosOffset e y x d = .ok (1, 0)) ∧
      ((e.entity_type = EntityType.obstacle ∨ e.entity_type = EntityType.border) →
        Entity.genNextPosOffset e y x d =
          .error (.exception "Tried to get the next position of an entity that does not move!")) := by
  intro e y x d
  refine ⟨fun h => ?_, fun h => ?_, fun h => ?_⟩
  · unfold Entity.genNextPosOffset
    rw [if_pos h]
  · unfold Entity.genNextPosOffset
    rw [if_neg (by simp [h]), if_pos h]
  · unfold Entity.genNextPosOffset
    rcases h with h | h <;>
      rw [if_neg (by simp [h]), if_neg (by simp [h]), if_neg (by simp [h])]

/-- Witness for C5: all three branches at concrete entities/positions. -/
theorem C5_witness :
    Entity.genNextPosOffset Entities.genNewPlayerProjectile 5 7 1 = .ok (-1, 0) ∧
    Entity.genNextPosOffset enemyProjEnt 5 7 1 = .ok (1, 0) ∧
    Entity.genNextPosOffset Borders.VERTICAL 5 7 1 =
      .error (.exception "Tried to get the next position of an entity that does not move!") :=
  ⟨(C5_offset_dispatch_on_kind Entities.genNewPlayerProjectile 5 7 1).1 rfl,
   (C5_offset_dispatch_on_kind enemyProjEnt 5 7 1).2.1 rfl,
   (C5_offset_dispatch_on_kind Borders.VERTICAL 5 7 1).2.2 (Or.inr rfl)⟩

/-! ### C6 -/

/-- Counterexample for C6: placing the non-projectile `enemyC6` at the
out-of-bounds cell (-1, 0) does NOT fail with an out-of-bounds error as the
claim requires for non-projectile kinds: the call returns normally and the
enemy has been silently removed from its roster (the same silent-destruction
treatment the claim reserves for projectiles). -/
theorem C6_counterexample :
    (Board.setEntityAtPos boardC6 (-1) 0 (some enemyC6) false).toOption.map
      (fun b => b.instances EntityType.enemy) = some [] := by
  decide

/-- C6 amended: for every placement request whose target cell fails the
placement bounds check (game columns 0..24 and game rows 0..16 pass - the
check lets through two rows below the playable area), ANY non-None entity -
projectile or not - is silently destroyed: the call succeeds, the entity is
removed from its kind roster, nothing is placed (both buffers unchanged),
and no error is raised.  (The error for non-projectiles moving out of
bounds lives in `Entity.__move`, not in placement.) -/
theorem C6_out_of_bounds_placement_silently_deletes :
    ∀ (b : Board) (y x : Int) (e : Entity) (u : Bool),
      ¬Board.setBoundsOk y x →
      (b.instances e.entity_type).count e = 1 →
      ∃ b', Board.setEntityAtPos b y x (some e) u = .ok b' ∧
        e ∉ b'.instances e.entity_type ∧
        (∀ t, t ≠ e.entity_type → b'.instances t = b.instances t) ∧
        b'.curr_board = b.curr_board ∧ b'.next_board = b.next_board ∧
        b'.score = b.score := by
  intro b y x e u hb hcount
  have hmem : e ∈ b.instances e.entity_type := by
    rw [← List.count_pos_iff]
    omega
  refine ⟨{ b with instances := fun t =>
      if t = e.entity_type then (b.instances t).erase e else b.instances t }, ?_, ?_, ?_, rfl, rfl, rfl⟩
  · unfold Board.setEntityAtPos
    rw [if_neg hb]
    dsimp only
    unfold Board.deleteEntityReferences
    rw [if_pos hmem]
  · intro hin
    have hin' : e ∈ (b.instances e.entity_type).erase e := by
      simpa using hin
    have hcnt := List.count_erase_self e (b.instances e.entity_type)
    rw [hcount] at hcnt
    have hp := List.count_pos_iff.2 hin'
    omega
  · intro t ht
    simp only [if_neg ht]

/-- Witness for C6: the projectile half of the behavior - a player
projectile placed at (-1, 12), one row above the playable area, is silently
removed from its roster with both buffers untouched. -/
theorem C6_witness :
    ∃ b', Board.setEntityAtPos
        { baseBoard with instances := fun t =>
            if t = EntityType.playerProjectile then [projPastThreshold] else [] }
        (-1) 12 (some projPastThreshold) false = .ok b' ∧
      projPastThreshold ∉ b'.instances EntityType.playerProjectile ∧
      (∀ t, t ≠ EntityType.playerProjectile →
        b'.instances t =
          ({ baseBoard with instances := fun t =>
              if t = EntityType.playerProjectile then [projPastThreshold] else [] } : Board).instances t) ∧
      b'.curr_board = baseBoard.curr_board ∧ b'.next_board = baseBoard.next_board ∧
      b'.score = baseBoard.score :=
  C6_out_of_bounds_placement_silently_deletes _ (-1) 12 projPastThreshold false
    (by decide) (by decide)

/-! ### C7 -/

/-- Counterexample for C7: destroying `projC7` via `Entity.__destroy` (the
boundary-exit destruction path) succeeds, yet immediately afterwards the
destroyed projectile still sits in its kind roster - `__destroy` clears the
next-buffer cell but never touches `board.instances`.  The claim says every
destruction leaves the entity in no kind roster. -/
theorem C7_counterexample :
    (Entity.destroy boardC7 projC7).toOption.map
      (fun b => b.instances EntityType.playerProjectile) = some [projC7] := by
  decide

/-- C7 amended: a collision-resolution destruction
(`Board.clearPosAndEntity`) does remove the entity from every kind roster
and from every
cell of the next buffer, leaving the current buffer untouched until the
commit that follows; but a boundary-exit destruction (`Entity.__destroy`,
exercised for projectiles) only clears the entity's next-buffer cell and
leaves every kind roster unchanged, so the destroyed projectile still
appears in its roster. -/
theorem C7_destruction_and_indices :
    (∀ (b : Board) (e : Entity) (py px : Int),
      e.position = some (py, px) →
      Board.setBoundsOk py px →
      (∀ ty tx, e ∈ b.next_board ty tx →
        ty = WindowConfig.convertToTrueY py ∧ tx = WindowConfig.convertToTrueX px) →
      (b.instances e.entity_type).count e = 1 →
      (∀ t, t ≠ e.entity_type → e ∉ b.instances t) →
      ∃ b', Board.clearPosAndEntity b e = .ok b' ∧
        (∀ t, e ∉ b'.instances t) ∧
        (∀ ty tx, e ∉ b'.next_board ty tx) ∧
        b'.curr_board = b.curr_board) ∧
    (∀ (b : Board) (e : Entity) (py px : Int),
      (e.entity_type = EntityType.playerProjectile ∨
        e.entity_type = EntityType.enemyProjectile) →
      e.position = some (py, px) →
      Board.setBoundsOk py px →
      ∃ b', Entity.destroy b e = .ok b' ∧
        b'.instances = b.instances ∧
        b'.next_board (WindowConfig.convertToTrueY py) (WindowConfig.convertToTrueX px) = [] ∧
        b'.curr_board = b.curr_board) := by
  constructor
  · intro b e py px hpos hbnd hcons hcount hother
    have hmem : e ∈ b.instances e.entity_type := by
      rw [← List.count_pos_iff]
      omega
    unfold Board.clearPosAndEntity
    rw [hpos]
    dsimp only
    rw [setNone_ok_eq b py px hbnd]
    simp only [exceptBind_ok]
    have hdel := deleteRefs_ok_eq
      { b with next_board := fun yy xx =>
          if yy = WindowConfig.convertToTrueY py ∧ xx = WindowConfig.convertToTrueX px then []
          else b.next_board yy xx }
      e hmem
    refine ⟨_, hdel, ?_, ?_, rfl⟩
    · intro t
      by_cases ht : t = e.entity_type
      · subst ht
        simp only [if_pos rfl]
        intro hin
        have hin' : e ∈ (b.instances e.entity_type).erase e := hin
        have hcnt := List.count_erase_self e (b.instances e.entity_type)
        rw [hcount] at hcnt
        have hp := List.count_pos_iff.2 hin'
        omega
      · simp only [if_neg ht]
        exact hother t ht
    · intro ty tx hin
      by_cases hc : ty = WindowConfig.convertToTrueY py ∧ tx = WindowConfig.convertToTrueX px
      · simp only [if_pos hc] at hin
        exact (List.not_mem_nil e) hin
      · simp only [if_neg hc] at hin
        exact hc (hcons ty tx hin)
  · intro b e py px hk hpos hbnd
    unfold Entity.destroy
    rw [hpos]
    dsimp only
    rw [setNone_ok_eq b py px hbnd]
    simp only [exceptBind_ok]
    have hne : e.entity_type ≠ EntityType.enemy := by
      rcases hk with h | h <;> simp [h]
    rw [if_neg hne]
    refine ⟨_, rfl, rfl, ?_, rfl⟩
    simp

/-- Witness for C7: the resolution-path destruction of `enemyC7` removes it
from every roster and every next-buffer cell. -/
theorem C7_witness :
    ∃ b', Board.clearPosAndEntity boardC7b enemyC7 = .ok b' ∧
      (∀ t, enemyC7 ∉ b'.instances t) ∧
      (∀ ty tx, enemyC7 ∉ b'.next_board ty tx) ∧
      b'.curr_board = boardC7b.curr_board :=
  C7_destruction_and_indices.1 boardC7b enemyC7 7 9 rfl (by decide)
    (by
      intro ty tx hin
      by_cases hc : ty = 10 ∧ tx = 10
      · rw [convY_eq, convX_eq]
        omega
      · exfalso
        have hin' : enemyC7 ∈ Board.emptyBoardCell ty tx := by
          simpa [boardC7b, if_neg hc] using hin
        have := mem_emptyBoardCell_border hin'
        simp [enemyC7] at this)
    (by decide)
    (by
      intro t ht
      have ht' : t ≠ EntityType.enemy := ht
      simp [boardC7b, if_neg ht'])

/-! ### C8 -/

/-- Counterexample for C8: on a hold tick (counter 0, threshold 3)
`moveToNextPos` returns with the board completely unchanged - in
particular, the entity is NOT re-asserted into its current cell of the next
buffer, which stays empty - and only the counter is incremented.  The claim
says the entity re-asserts its current cell in the next buffer so as to
survive the commit there. -/
theorem C8_counterexample :
    Entity.moveToNextPos baseBoard enemyHold =
      .ok (baseBoard, { enemyHold with ticks_since_last_move := 1 }) ∧
    baseBoard.next_board (WindowConfig.convertToTrueY 5) (WindowConfig.convertToTrueX 6) = [] := by
  constructor
  · rfl
  · decide

/-- C8 amended: on a tick where the move-cooldown counter has not yet
exceeded the ticks-per-movement threshold, the entity does not move and
writes nothing at all into the next buffer (the board is returned
unchanged; there is no re-assertion of its current cell), and its counter
is incremented; only once the counter exceeds the threshold does the entity
actually move, and a successful move leaves the counter reset (to 1: it is
zeroed and then the shared increment applies). -/
theorem C8_throttle_without_reassertion :
    (∀ (b : Board) (e : Entity),
      e.ticks_since_last_move ≤ Config.TICKS_PER_ENEMY_MOVEMENT →
      Entity.moveToNextPos b e =
        .ok (b, { e with ticks_since_last_move := e.ticks_since_last_move + 1 })) ∧
    (∀ (b : Board) (e : Entity) (b' : Board) (e' : Entity),
      Config.TICKS_PER_ENEMY_MOVEMENT < e.ticks_since_last_move →
      Entity.moveToNextPos b e = .ok (b', e') →
      e'.ticks_since_last_move = 1) := by
  constructor
  · intro b e h
    unfold Entity.moveToNextPos
    rw [if_neg (by omega)]
    rfl
  · intro b e b' e' h hok
    unfold Entity.moveToNextPos at hok
    rw [if_pos h] at hok
    rcases hpos : e.position with _ | ⟨py, px⟩ <;> rw [hpos] at hok
    · simp at hok
    · dsimp only at hok
      cases hoff : Entity.genNextPosOffset e py px 1 with
        | error er => rw [hoff] at hok; simp at hok
        | ok off =>
          rw [hoff] at hok
          simp only [exceptBind_ok] at hok
          cases hmv : Entity.move b e off.1 off.2 with
          | error er => rw [hmv] at hok; simp at hok
          | ok be =>
            rw [hmv] at hok
            simp only [exceptBind_ok, exceptPure_eq_ok, Except.ok.injEq, Prod.mk.injEq] at hok
            rw [← hok.2]

/-- Witness for C8: both conjuncts at concrete inputs - the hold branch on
`enemyHold` (counter 0), and the counter reset on a successful
past-threshold call. -/
theorem C8_witness :
    Entity.moveToNextPos baseBoard enemyHold =
      .ok (baseBoard, { enemyHold with ticks_since_last_move := 1 }) ∧
    ∀ (b' : Board) (e' : Entity),
      Entity.moveToNextPos baseBoard projPastThreshold = .ok (b', e') →
      e'.ticks_since_last_move = 1 :=
  ⟨C8_throttle_without_reassertion.1 baseBoard enemyHold (by decide),
   fun b' e' hok =>
     C8_throttle_without_reassertion.2 baseBoard projPastThreshold b' e' (by decide) hok⟩

/-! ### C9 -/

/-- C9: a next-buffer cell with 3 or more occupants is always fatal at
collision-resolution time regardless of the occupants, both for the
per-cell resolution step and for the resolution loop reaching that cell:
it raises the overcrowded-cell error instead of resolving. -/
theorem C9_overcrowded_cell_fatal :
    (∀ (b : Board) (y x : Int), 2 < (b.next_board y x).length →
      Board.resolveCell b y x =
        .error (.exception "Should not ever have more than two entities on one position!")) ∧
    (∀ (b : Board) (y x : Int) (cs : List (Int × Int)), 2 < (b.next_board y x).length →
      Board.clearCollisionsAux b ((y, x) :: cs) =
        .error (.exception "Should not ever have more than two entities on one position!")) := by
  have hcell : ∀ (b : Board) (y x : Int), 2 < (b.next_board y x).length →
      Board.resolveCell b y x =
        .error (.exception "Should not ever have more than two entities on one position!") := by
    intro b y x h
    unfold Board.resolveCell
    rw [if_neg (by omega), if_pos (by omega)]
  refine ⟨hcell, fun b y x cs h => ?_⟩
  unfold Board.clearCollisionsAux
  rw [show (Board.resolveCell b (y, x).1 (y, x).2) = _ from hcell b y x h]
  rfl

/-- Witness for C9: the 3-occupant cell above is fatal. -/
theorem C9_witness :
    Board.resolveCell boardC9 10 10 =
      .error (.exception "Should not ever have more than two entities on one position!") :=
  (C9_overcrowded_cell_fatal.1 boardC9 10 10) (by decide)

/-! ### C10 -/

/-- Counterexample for C10: an unpaused tick whose only input is the fire
key (a tick on which the player neither moves left nor right, so the claim
says `stayStill` is called) never reaches the `stayStill` call site: the
projectile placement inside `spawnProjectile` raises
`AttributeError("setPosition")` first, so the tick dies with a different
AttributeError than the claimed one. -/
theorem C10_counterexample :
    SpaceInvaders.update baseBoard
        { id := 70, symbol := "ﾑ", color := Colors.RED, entity_type := .player,
          position := some (14, 12) }
        false (fun g => if g = InputType.fire then 32 else -1) =
      .error (.attributeError "setPosition") := by
  rfl

/-- C10 amended: `stayStill` is defined by no class in the modular sources,
and on every tick that is paused at entry, as well as on every unpaused
tick whose movement and fire groups have no buffered key, `update` reaches
`self.player.stayStill(self.board)` and raises
`AttributeError("stayStill")` instead of holding the player in place.
(On unpaused ticks with a movement or fire key the tick still dies with an
`AttributeError`, but from the missing `setPosition` inside the attempted
move or spawn, before the `stayStill` site is reached.) -/
theorem C10_stayStill_attribute_error :
    ("stayStill" ∉ Entity.methods) ∧
    ∀ (b : Board) (player : Entity) (is_paused : Bool) (keys : InputType → Int),
      (is_paused = true ∨
        (keys InputType.movement = SpaceInvaders.curses_ERR ∧
         keys InputType.fire = SpaceInvaders.curses_ERR)) →
      SpaceInvaders.update b player is_paused keys =
        .error (.attributeError "stayStill") := by
  constructor
  · decide
  · intro b player is_paused keys hcase
    unfold SpaceInvaders.update
    simp only [List.foldlM_cons, List.foldlM_nil]
    rcases hcase with hp | ⟨hm, hf⟩
    · subst hp
      rw [updateStep_paused_skip keys b player false InputType.movement (Or.inl rfl)]
      simp only [exceptBind_ok]
      rw [updateStep_paused_skip keys b player false InputType.fire (Or.inr rfl)]
      simp only [exceptBind_ok]
      rw [updateStep_quit keys b player true false]
      simp only [exceptBind_ok]
      rw [updateStep_pause keys b player true false]
      simp only [exceptBind_ok, exceptPure_eq_ok]
      rfl
    · rw [updateStep_err keys (b, player, is_paused, false) InputType.movement hm]
      simp only [exceptBind_ok]
      rw [updateStep_err keys (b, player, is_paused, false) InputType.fire hf]
      simp only [exceptBind_ok]
      rw [updateStep_quit keys b player is_paused false]
      simp only [exceptBind_ok]
      rw [updateStep_pause keys b player is_paused false]
      simp only [exceptBind_ok, exceptPure_eq_ok]
      rfl

/-- Witness for C10: a paused tick with a movement key buffered - the check
sits outside the pause guard, so the tick still dies at `stayStill`. -/
theorem C10_witness :
    SpaceInvaders.update baseBoard Entities.PLAYER true
        (fun g => if g = InputType.movement then 97 else -1) =
      .error (.attributeError "stayStill") :=
  C10_stayStill_attribute_error.2 baseBoard Entities.PLAYER true
    (fun g => if g = InputType.movement then 97 else -1) (Or.inl rfl)
